import Mathlib

/-!
Verification development for the inventory/document-management application
(Angular frontend + NestJS/TypeORM backend).

The backend services are embedded shallowly: the TypeORM repository backing a
service is modelled as an explicit list of entity records threaded through each
operation, a thrown `HttpException` becomes the error side of `Except`, and the
framework-provided collaborators (bcrypt password comparison, JWT signing,
`Math.random`) become explicit function or value parameters.  Each definition
mirrors one function of the source tree, keeping its name where Lean allows.
-/

/-- HTTP status codes used by the backend services (NestJS `HttpStatus`). -/
inductive HttpStatus where
  | badRequest
  | unauthorized
  | notFound
  | internalServerError
deriving Repr, DecidableEq

/-- A thrown NestJS `HttpException`: a message plus an HTTP status. -/
structure HttpException where
  message : String
  status : HttpStatus
deriving Repr, DecidableEq

/-- Persisted user record (`UserEntity` in
src/backend/src/users/entities/user.entity.ts): numeric primary key, external
uid, profile fields, hashed password and national id (cpf). -/
structure UserEntity where
  id : Nat
  uid : String
  name : String
  email : String
  password : String
  cpf : String
deriving Repr, DecidableEq

/-- Outward-facing user shape (`UserDTO`). -/
structure UserDTO where
  id : Nat
  uid : String
  name : String
  email : String
  cpf : String
deriving Repr, DecidableEq

/-- Registration/login input (`UserCreateDTO`). -/
structure UserCreateDTO where
  name : String
  email : String
  password : String
  cpf : String
deriving Repr, DecidableEq

/-- Login credentials (`LoginUserDTO`). -/
structure LoginUserDTO where
  email : String
  password : String
deriving Repr, DecidableEq

/-- JavaScript `s.replace(/\D/g, '')`: remove every non-digit character. -/
def stripNonDigits (s : String) : String :=
  String.mk (s.data.filter Char.isDigit)

/-- One attempt of the regex `/(\d{3})(\d{3})(\d{3})(\d{2})/` replacement used
by `toUserDTO` (src/backend/src/users/mapper.ts line 16): the JavaScript
`String.replace` with a non-global regex substitutes the leftmost position at
which eleven consecutive digit characters occur with the masked form
`$1.$2.$3-$4`, leaving everything else unchanged; with no match the string is
returned as is. -/
def replaceFirstCpf : List Char → List Char
  | a :: b :: c :: d :: e :: f :: g :: h :: i :: j :: k :: rest =>
    if [a, b, c, d, e, f, g, h, i, j, k].all Char.isDigit then
      a :: b :: c :: '.' :: d :: e :: f :: '.' :: g :: h :: i :: '-' :: j :: k :: rest
    else
      a :: replaceFirstCpf (b :: c :: d :: e :: f :: g :: h :: i :: j :: k :: rest)
  | l => l

/-- Mapper `toUserDTO` (src/backend/src/users/mapper.ts): copies the visible
fields and renders the cpf by first stripping non-digits and then applying the
masking regex replacement. -/
def toUserDTO (entity : UserEntity) : UserDTO :=
  let cpf := stripNonDigits entity.cpf
  { id := entity.id
    uid := entity.uid
    name := entity.name
    email := entity.email
    cpf := String.mk (replaceFirstCpf cpf.data) }

/-- The partial entity produced by `UsersService.mapUserDTO`. -/
structure UserFields where
  name : String
  email : String
  password : String
  cpf : String
deriving Repr, DecidableEq

/-- UsersService.mapUserDTO (users.service.ts lines 167-174): copies the
fields of the create DTO and normalizes the cpf to digits only. -/
def mapUserDTO (dto : UserCreateDTO) : UserFields :=
  { name := dto.name
    email := dto.email
    password := dto.password
    cpf := stripNonDigits dto.cpf }

/-- UsersService.createUser (users.service.ts lines 56-69): rejects a
duplicate email with a 400 `HttpException`, otherwise persists the mapped
fields together with a fresh uid (`uuid.v4()`, modelled as the parameter
`newUid`) and the database-assigned id (`newId`), and returns the DTO of the
saved record together with the new store. -/
def createUser (newId : Nat) (newUid : String) (userDTO : UserCreateDTO)
    (db : List UserEntity) : Except HttpException (UserDTO × List UserEntity) :=
  match db.find? (fun u => u.email == userDTO.email) with
  | some _ => .error { message := "User already exists", status := .badRequest }
  | none =>
    let fields := mapUserDTO userDTO
    let user : UserEntity :=
      { id := newId
        uid := newUid
        name := fields.name
        email := fields.email
        password := fields.password
        cpf := fields.cpf }
    .ok (toUserDTO user, db ++ [user])

/-- UsersService.getUser (users.service.ts lines 34-44): looks the user up by
id and throws a 400 `HttpException` with message "User not found" when the id
is absent. -/
def getUser (id : Nat) (db : List UserEntity) : Except HttpException UserDTO :=
  match db.find? (fun u => u.id == id) with
  | none => .error { message := "User not found", status := .badRequest }
  | some user => .ok (toUserDTO user)

/-- UsersService.updateUser (users.service.ts lines 83-95): `preload` resolves
the id and merges the mapped fields; an absent id yields a 404
`HttpException`; otherwise the merged record is saved and returned as a DTO. -/
def updateUser (id : Nat) (userDTO : UserCreateDTO) (db : List UserEntity) :
    Except HttpException (UserDTO × List UserEntity) :=
  match db.find? (fun u => u.id == id) with
  | none => .error { message := "User not found", status := .notFound }
  | some user =>
    let fields := mapUserDTO userDTO
    let merged : UserEntity :=
      { user with
        name := fields.name
        email := fields.email
        password := fields.password
        cpf := fields.cpf }
    .ok (toUserDTO merged, db.map (fun u => if u.id == id then merged else u))

/-- UsersService.deleteUser (users.service.ts lines 114-120): calls
`repository.delete(id)`, which removes the matching rows and reports success
whether or not any row matched; the surrounding try/catch only converts a
repository exception (which the delete of an absent id does not raise) into a
400, so deleting an absent id is a silent no-op. -/
def deleteUser (id : Nat) (db : List UserEntity) :
    Except HttpException (List UserEntity) :=
  .ok (db.filter (fun u => !(u.id == id)))

/-- UsersService.findByLogin (users.service.ts lines 129-141): resolves the
user by email; an absent email throws `HttpException('User not found',
UNAUTHORIZED)`; a present user whose stored hash does not compare equal to the
supplied password (bcrypt `comparePasswords`, modelled as the parameter `cmp`)
throws `HttpException('Invalid credentials', UNAUTHORIZED)`; otherwise the DTO
is returned. -/
def findByLogin (cmp : String → String → Bool) (loginDTO : LoginUserDTO)
    (db : List UserEntity) : Except HttpException UserDTO :=
  match db.find? (fun u => u.email == loginDTO.email) with
  | none => .error { message := "User not found", status := .unauthorized }
  | some user =>
    if cmp user.password loginDTO.password then
      .ok (toUserDTO user)
    else
      .error { message := "Invalid credentials", status := .unauthorized }

/-- Result shape of AuthService.register (`RegistrationStatus`). -/
structure RegistrationStatus where
  success : Bool
  message : String
deriving Repr, DecidableEq

/-- AuthService.register (auth.service.ts lines 39-53): delegates to
`UsersService.createUser` inside a try/catch, turning any thrown error into a
structured failure result (falling back to a generic message when the error
message is empty, JavaScript `err.message || '...'`); the store is left
untouched by a failed creation. -/
def register (newId : Nat) (newUid : String) (userDto : UserCreateDTO)
    (db : List UserEntity) : RegistrationStatus × List UserEntity :=
  match createUser newId newUid userDto db with
  | .ok (_, db2) => ({ success := true, message := "user registered" }, db2)
  | .error err =>
    ({ success := false
       message := if err.message == "" then "user registration failed" else err.message }, db)

/-- Result shape of AuthService.login (`LoginStatus`). -/
structure LoginStatus where
  accessToken : String
  expiresIn : String
  uid : String
deriving Repr, DecidableEq

/-- AuthService.login (auth.service.ts lines 61-71): resolves the user through
`findByLogin` (propagating its exceptions), signs a token over the uid
(`jwtService.sign`, modelled as the parameter `sign`) and returns the token,
the configured expiry and the uid. -/
def login (cmp : String → String → Bool) (sign : String → String)
    (expiresIn : String) (loginUserDto : LoginUserDTO) (db : List UserEntity) :
    Except HttpException LoginStatus :=
  match findByLogin cmp loginUserDto db with
  | .error e => .error e
  | .ok user =>
    .ok { accessToken := sign user.uid, expiresIn := expiresIn, uid := user.uid }

/-- Runtime failures observable from `validateUser`: either a JavaScript
`TypeError` (a property access on `null`/`undefined`) or a thrown
`HttpException`. -/
inductive JsError where
  | typeError (msg : String)
  | http (e : HttpException)
deriving Repr, DecidableEq

/-- Applying the mapper `toUserDTO` to the result of `findOne`: when the
lookup produced no row the entity is `null` and the very first property access
`entity.id` (mapper.ts line 10) raises a `TypeError`. -/
def toUserDTONullable (entity : Option UserEntity) : Except JsError UserDTO :=
  match entity with
  | none => .error (.typeError "Cannot read properties of null")
  | some u => .ok (toUserDTO u)

/-- UsersService.findByPayload (users.service.ts lines 154-156): resolves the
user by the uid of the token payload and immediately feeds the (possibly null)
result of `findOne` to `toUserDTO`. -/
def findByPayload (uid : String) (db : List UserEntity) : Except JsError UserDTO :=
  toUserDTONullable (db.find? (fun u => u.uid == uid))

/-- Truthiness of a `UserDTO` value under JavaScript coercion: a returned DTO
is a non-null object, hence always truthy. -/
def jsObjectIsFalsy (_ : UserDTO) : Bool := false

/-- AuthService.validateUser (auth.service.ts lines 96-102): awaits
`findByPayload` (so any error it raises propagates) and then guards
`if (!user) throw HttpException('Invalid token', UNAUTHORIZED)`; since a
resolved DTO is never falsy this guard can only fall through. -/
def validateUser (uid : String) (db : List UserEntity) : Except JsError UserDTO :=
  match findByPayload uid db with
  | .error e => .error e
  | .ok user =>
    if jsObjectIsFalsy user then
      .error (.http { message := "Invalid token", status := .unauthorized })
    else
      .ok user

/-- Persisted supplier record (`Supplier` entity): numeric id, name and
contact fields (the contact fields are collapsed into one string). -/
structure Supplier where
  id : Nat
  name : String
  contact : String
deriving Repr, DecidableEq

/-- Partial update input (`UpdateSupplierDto`, a partial of the create DTO):
absent fields leave the stored value unchanged. -/
structure UpdateSupplierDto where
  name : Option String
  contact : Option String
deriving Repr, DecidableEq

/-- SupplierService.findOne (supplier.service.ts lines 30-32): resolves the id
and returns null (here `none`) when absent — no exception is thrown. -/
def supplierFindOne (id : Nat) (store : List Supplier) : Option Supplier :=
  store.find? (fun s => s.id == id)

/-- SupplierService.update (supplier.service.ts lines 47-51): `preload` merges
the partial DTO over the stored record; an absent id throws
`NotFoundException`. -/
def supplierUpdate (id : Nat) (dto : UpdateSupplierDto) (store : List Supplier) :
    Except HttpException (Supplier × List Supplier) :=
  match store.find? (fun s => s.id == id) with
  | none => .error { message := "Supplier not found", status := .notFound }
  | some s =>
    let merged : Supplier :=
      { s with name := dto.name.getD s.name, contact := dto.contact.getD s.contact }
    .ok (merged, store.map (fun t => if t.id == id then merged else t))

/-- SupplierService.remove (supplier.service.ts lines 53-55): calls
`repo.delete(id)` with no existence check; the rows matching the id are
removed and the call succeeds whether or not any row matched. -/
def supplierRemove (id : Nat) (store : List Supplier) :
    Except HttpException (List Supplier) :=
  .ok (store.filter (fun s => !(s.id == id)))

/-- Persisted document record (`DocumentEntity`): id, filename, file type,
upload date (its calendar-date part, as compared by the SQL `DATE()` in the
filter query) and the id of the owning user (reached through the
`leftJoinAndSelect` on `doc.user`). -/
structure DocumentEntity where
  id : Nat
  filename : String
  file_type : String
  upload_date : String
  user_id : Nat
deriving Repr, DecidableEq

/-- Outward-facing document shape. Modelled from the spec: the document mapper
`toDocumentDTO` is not under src (only its import and call sites are); per the
spec, mapper functions are pure functions converting a persisted entity to an
outward-facing DTO, so the DTO carries the entity's fields through one to one. -/
structure DocumentDTO where
  id : Nat
  filename : String
  file_type : String
  upload_date : String
  user_id : Nat
deriving Repr, DecidableEq

/-- Modelled from the spec: `toDocumentDTO` (src/backend/src/users mapper for
documents, not under src) converts a persisted document entity to its DTO,
copying the fields. -/
def toDocumentDTO (d : DocumentEntity) : DocumentDTO :=
  { id := d.id
    filename := d.filename
    file_type := d.file_type
    upload_date := d.upload_date
    user_id := d.user_id }

/-- Filter input of the documents query (`DocumentFilter` DTO): every field is
optional. -/
structure DocumentFilter where
  file_type : Option String
  user_id : Option Nat
  id : Option Nat
  filename : Option String
  upload_date : Option String
deriving Repr, DecidableEq

/-- JavaScript truthiness of an optional string value: `undefined` and the
empty string are falsy, every other string is truthy. -/
def truthyStr : Option String → Bool
  | none => false
  | some s => !(s == "")

/-- JavaScript truthiness of an optional numeric value: `undefined` and `0`
are falsy, every other number is truthy. -/
def truthyNum : Option Nat → Bool
  | none => false
  | some n => !(n == 0)

/-- The accumulated WHERE clause of the TypeORM query builder, as a predicate
on document rows; `createQueryBuilder` starts from the always-true clause. -/
def emptyQuery : DocumentEntity → Bool := fun _ => true

/-- The query builder's `andWhere`: conjoins one more predicate onto the
accumulated WHERE clause. -/
def andWhere (q : DocumentEntity → Bool) (p : DocumentEntity → Bool) :
    DocumentEntity → Bool :=
  fun d => q d && p d

/-- JavaScript `toLowerCase` / SQL `LOWER`: lowercase every character. -/
def jsToLowerCase (s : String) : String :=
  String.mk (s.data.map Char.toLower)

/-- Plain substring test, the spec's reading of the filename filter: does
`pat` occur contiguously inside `s`? (Case-insensitivity is obtained by
lowercasing both sides before the call.) -/
def containsSub (s pat : String) : Bool :=
  (List.range (s.data.length + 1)).any (fun i => pat.data.isPrefixOf (s.data.drop i))

/-- SQL `LIKE` pattern matching (MySQL semantics with the default escape
character): in the pattern, a percent sign matches any sequence of zero or
more characters, an underscore matches exactly one character, and a backslash
escapes the following character so that it matches literally; every other
pattern character matches itself.  A pattern-final lone backslash matches a
literal backslash (this arm is unreachable from `findWithFilters`, whose
pattern always ends in a percent sign). -/
def likeMatch : List Char → List Char → Bool
  | [], s => s.isEmpty
  | c :: ps, s =>
    if c == '%' then
      s.tails.any (fun t => likeMatch ps t)
    else if c == '\\' then
      match ps, s with
      | e :: ps', d :: s' => (d == e) && likeMatch ps' s'
      | _ :: _, [] => false
      | [], d :: s' => (d == '\\') && s'.isEmpty
      | [], [] => false
    else if c == '_' then
      match s with
      | [] => false
      | _ :: s' => likeMatch ps s'
    else
      match s with
      | [] => false
      | d :: s' => (d == c) && likeMatch ps s'

/-- The parameter bound to the filename clause (users.service.ts lines
238-242): the user-supplied value, lowercased, wrapped between percent
signs. -/
def likePattern (value : String) : List Char :=
  '%' :: (jsToLowerCase value).data ++ ['%']

/-- A string free of the SQL LIKE metacharacters percent, underscore and
backslash: on such filter values LIKE '%value%' degenerates to a literal
substring test. -/
def noLikeMeta (s : String) : Bool :=
  s.data.all (fun c => !(c == '%' || c == '_' || c == '\\'))

/-- DocumentsService.findWithFilters (users.service.ts lines 220-250): builds
the query by conditionally appending one `andWhere` clause per truthy filter
field — file-type equality, owner-id equality, id equality,
`LOWER(doc.filename) LIKE :filename` with the lowercased value wrapped in
percent signs (so LIKE metacharacters inside the value keep their wildcard
meaning), and upload-date equality under `DATE()` — then `getMany` returns
every row satisfying the accumulated clause, without pagination, and the rows
are mapped to DTOs. -/
def findWithFilters (filters : DocumentFilter) (docs : List DocumentEntity) :
    List DocumentDTO :=
  let q := emptyQuery
  let q := if truthyStr filters.file_type then
      andWhere q (fun d => d.file_type == filters.file_type.getD "") else q
  let q := if truthyNum filters.user_id then
      andWhere q (fun d => d.user_id == filters.user_id.getD 0) else q
  let q := if truthyNum filters.id then
      andWhere q (fun d => d.id == filters.id.getD 0) else q
  let q := if truthyStr filters.filename then
      andWhere q (fun d =>
        likeMatch (likePattern (filters.filename.getD "")) (jsToLowerCase d.filename).data) else q
  let q := if truthyStr filters.upload_date then
      andWhere q (fun d => d.upload_date == filters.upload_date.getD "") else q
  (docs.filter q).map toDocumentDTO

/-- DocumentsService.findById (users.service.ts lines 256-263): resolves the
document by id and throws a 404 `HttpException` when absent. -/
def documentsFindById (id : Nat) (docs : List DocumentEntity) :
    Except HttpException DocumentDTO :=
  match docs.find? (fun d => d.id == id) with
  | none => .error { message := "Document not found", status := .notFound }
  | some d => .ok (toDocumentDTO d)

/-- One optional string-valued filter clause of the spec's conjunction: an
absent value imposes no constraint, a provided value must satisfy the
predicate. -/
def optClauseStr (g : String → Bool) : Option String → Bool
  | none => true
  | some s => g s

/-- One optional numeric filter clause of the spec's conjunction: an absent
value imposes no constraint, a provided value must satisfy the predicate. -/
def optClauseNum (g : Nat → Bool) : Option Nat → Bool
  | none => true
  | some n => g n

/-- The spec's reading of the document filter query, stated directly from its
words: the result set is the documents satisfying the conjunction of the
provided predicates — file-type equality, owner-id equality, id equality,
case-insensitive substring match on the filename, exact upload date — where an
absent filter imposes no constraint. -/
def specMatchesFilter (filters : DocumentFilter) (d : DocumentEntity) : Bool :=
  optClauseStr (fun t => d.file_type == t) filters.file_type &&
  optClauseNum (fun u => d.user_id == u) filters.user_id &&
  optClauseNum (fun i => d.id == i) filters.id &&
  optClauseStr (fun p => containsSub (jsToLowerCase d.filename) (jsToLowerCase p))
    filters.filename &&
  optClauseStr (fun t => d.upload_date == t) filters.upload_date

/-- The filter object with every field absent. -/
def emptyFilter : DocumentFilter :=
  { file_type := none, user_id := none, id := none, filename := none, upload_date := none }

/-- A file offered to the file input of the product-entry form: its name, its
MIME type (`file.type`), its size in bytes and the base64 rendering of its
content (the part of the data URL produced by the `FileReader` after the
comma). -/
structure FileInfo where
  name : String
  mimeType : String
  size : Nat
  base64 : String
deriving Repr, DecidableEq

/-- The slice of `ProductEntryComponent` state that `onFileSelected` touches:
the pending upload (name and base64 content), the oversize flag, and the
alerts shown so far (`window.alert` is modelled by appending the message). -/
structure EntryComponentState where
  uploadFile : Option (String × String)
  file_size_error : Bool
  alerts : List String
deriving Repr, DecidableEq

/-- MAX_FILE_SIZE (product-entry.component.ts line 80): 30 KiB. -/
def MAX_FILE_SIZE : Nat := 30 * 1024

/-- ProductEntryComponent.onFileSelected (product-entry.component.ts lines
555-578): an empty selection returns immediately; a file whose MIME type is
not application/pdf raises an alert and returns; a PDF larger than
MAX_FILE_SIZE sets the oversize flag and returns; otherwise the flag is
cleared and the pending upload is set to the file's name and base64 content
(via the FileReader's onload). -/
def onFileSelected (st : EntryComponentState) (files : List FileInfo) :
    EntryComponentState :=
  match files with
  | [] => st
  | file :: _ =>
    if !(file.mimeType == "application/pdf") then
      { st with alerts := st.alerts ++ ["Apenas arquivos PDF são permitidos!"] }
    else if file.size > MAX_FILE_SIZE then
      { st with file_size_error := true }
    else
      { st with file_size_error := false, uploadFile := some (file.name, file.base64) }

/-- JavaScript `str.split(' ')` on the character list: splits at every single
occurrence of the separator, keeping empty chunks (splitting the empty string
yields one empty chunk). -/
def jsSplitOnSpace : List Char → List (List Char)
  | [] => [[]]
  | c :: rest =>
    match jsSplitOnSpace rest with
    | [] => if c == ' ' then [[], [c]] else [[c]]
    | w :: ws => if c == ' ' then [] :: w :: ws else (c :: w) :: ws

/-- JavaScript `toUpperCase`: uppercase every character. -/
def jsToUpperCase (l : List Char) : List Char :=
  l.map Char.toUpper

/-- The initials pipeline of `generateEntryId`
(src/unnamed/part_001 lines 124-128):
`name.split(' ').map(w => w.charAt(0)).join('').toUpperCase()` — the first
character of each space-separated chunk (the empty string for an empty chunk),
concatenated and uppercased. -/
def initials (name : String) : List Char :=
  jsToUpperCase (((jsSplitOnSpace name.data).map (fun w => w.take 1)).flatten)

/-- JavaScript `s.padStart(4, '0')`: left-pad with zeros up to length 4. -/
def padStart4 (s : String) : List Char :=
  List.replicate (4 - s.data.length) '0' ++ s.data

/-- ProductEntryService.generateEntryId (src/unnamed/part_001 lines 123-140):
concatenates the uppercase initials of the name with the zero-padded decimal
rendering of `Math.floor(Math.random() * 9999)` (the draw is the parameter
`r`), shuffles the combined characters (`sort` under a random comparator, the
parameter `shuffle`) and truncates to the first 6 characters
(`substring(0, 6)`). -/
def generateEntryId (shuffle : List Char → List Char) (r : Nat)
    (productName : String) : String :=
  let randomNum := padStart4 (Nat.repr r)
  let combined := shuffle (initials productName ++ randomNum)
  String.mk (combined.take 6)

/-- The spec's canonical masked national-id format: three digits, a dot, three
digits, a dot, three digits, a dash, two digits (the shape 000.000.000-00). -/
def isCpfMask (s : String) : Bool :=
  match s.data with
  | [a, b, c, p1, d, e, f, p2, g, h, i, p3, j, k] =>
    p1 == '.' && p2 == '.' && p3 == '-' &&
      [a, b, c, d, e, f, g, h, i, j, k].all Char.isDigit
  | _ => false

/-- A sample stored user, used by the concrete witnesses below. -/
def sampleUser : UserEntity :=
  { id := 1
    uid := "u-1"
    name := "Ana"
    email := "a@b.com"
    password := "hash"
    cpf := "52998224725" }

/-- A sample stored document, used by the concrete witnesses below. -/
def sampleDoc : DocumentEntity :=
  { id := 1
    filename := "Invoice.pdf"
    file_type := "pdf"
    upload_date := "2024-01-01"
    user_id := 3 }

/-- Claim C1 as stated is false on the code: for a login attempt whose email
matches no stored user, `findByLogin` fails with HTTP status Unauthorized (its
message reads "User not found", but the status is UNAUTHORIZED, users.service.ts
line 132), not with status NotFound as the claim requires. -/
theorem findByLogin_missing_email_not_notFound :
    findByLogin (fun a b => a == b) { email := "a@b.com", password := "pw" } [] =
      .error { message := "User not found", status := .unauthorized } ∧
    HttpStatus.unauthorized ≠ HttpStatus.notFound :=
  ⟨rfl, by decide⟩

/-- Claim C1 (amended): for every login attempt, findByLogin fails with an
Unauthorized HttpException (message "User not found") when no user has the
given email, fails with an Unauthorized HttpException (message "Invalid
credentials") when a user exists but the password hash does not match, and
otherwise returns the user's DTO, so that login returns a signed token for the
user's uid. -/
theorem findByLogin_cases (cmp : String → String → Bool) (sign : String → String)
    (expiresIn : String) (loginDTO : LoginUserDTO) (db : List UserEntity) :
    (db.find? (fun u => u.email == loginDTO.email) = none →
      findByLogin cmp loginDTO db =
        .error { message := "User not found", status := .unauthorized }) ∧
    (∀ u, db.find? (fun v => v.email == loginDTO.email) = some u →
      (cmp u.password loginDTO.password = false →
        findByLogin cmp loginDTO db =
          .error { message := "Invalid credentials", status := .unauthorized }) ∧
      (cmp u.password loginDTO.password = true →
        findByLogin cmp loginDTO db = .ok (toUserDTO u) ∧
        login cmp sign expiresIn loginDTO db =
          .ok { accessToken := sign u.uid, expiresIn := expiresIn, uid := u.uid })) := by
  constructor
  · intro h
    simp [findByLogin, h]
  · intro u hu
    constructor
    · intro hcmp
      simp [findByLogin, hu, hcmp]
    · intro hcmp
      have hf : findByLogin cmp loginDTO db = .ok (toUserDTO u) := by
        simp [findByLogin, hu, hcmp]
      exact ⟨hf, by simp [login, hf, toUserDTO]⟩

/-- Witness for findByLogin_cases at a concrete store: the sample user logs in
with the matching password and receives the DTO. -/
theorem findByLogin_cases_witness :
    findByLogin (fun a b => a == b) { email := "a@b.com", password := "hash" }
      [sampleUser] = .ok (toUserDTO sampleUser) :=
  ((((findByLogin_cases (fun a b => a == b) (fun s => s) "3600"
      { email := "a@b.com", password := "hash" } [sampleUser]).2
      sampleUser (by decide)).2) (by decide)).1

/-- Claim C3: registering an email that is already stored yields the
structured failure result with message "User already exists" and leaves the
store unchanged (no duplicate record); more generally register converts every
failure of createUser into a success := false result with the error's message
instead of propagating, leaving the store unchanged. -/
theorem register_converts_failures (newId : Nat) (newUid : String)
    (userDto : UserCreateDTO) (db : List UserEntity) :
    ((∃ u, u ∈ db ∧ u.email = userDto.email) →
      register newId newUid userDto db =
        ({ success := false, message := "User already exists" }, db)) ∧
    (∀ e, createUser newId newUid userDto db = .error e →
      (register newId newUid userDto db).1.success = false ∧
      (register newId newUid userDto db).2 = db) := by
  constructor
  · rintro ⟨u, hu, he⟩
    have hsome : (db.find? (fun v => v.email == userDto.email)).isSome := by
      rw [List.find?_isSome]
      exact ⟨u, hu, by simp [he]⟩
    obtain ⟨v, hv⟩ := Option.isSome_iff_exists.mp hsome
    have hc : createUser newId newUid userDto db =
        .error { message := "User already exists", status := .badRequest } := by
      simp [createUser, hv]
    simp [register, hc]
  · intro e he
    simp [register, he]

/-- Witness for register_converts_failures: registering the sample user's
email a second time fails with the structured result and the store keeps the
single original record. -/
theorem register_converts_failures_witness :
    register 2 "u-2"
      { name := "Bia", email := "a@b.com", password := "pw2", cpf := "11144477735" }
      [sampleUser] =
      ({ success := false, message := "User already exists" }, [sampleUser]) :=
  (register_converts_failures 2 "u-2"
    { name := "Bia", email := "a@b.com", password := "pw2", cpf := "11144477735" }
    [sampleUser]).1 ⟨sampleUser, by decide, by decide⟩

/-- Claim C6 as stated is false on the code: deleting an absent supplier id or
user id succeeds silently instead of failing NotFound, fetching an absent user
id fails with status BadRequest rather than NotFound, and fetching an absent
supplier id returns null without failing. -/
theorem absent_id_not_uniformly_notFound :
    supplierRemove 1 [] = .ok [] ∧
    deleteUser 1 [] = .ok [] ∧
    getUser 1 [] = .error { message := "User not found", status := .badRequest } ∧
    supplierFindOne 1 [] = none ∧
    HttpStatus.badRequest ≠ HttpStatus.notFound :=
  ⟨rfl, rfl, rfl, rfl, by decide⟩

/-- Claim C6 (amended): for an id absent from the store, supplier update, user
update and document lookup fail with NotFound, but supplier remove and user
delete succeed silently leaving the store unchanged, user lookup fails with
BadRequest, and supplier lookup returns null without failing. -/
theorem absent_id_behavior (id : Nat) (sdto : UpdateSupplierDto)
    (udto : UserCreateDTO) (store : List Supplier) (db : List UserEntity)
    (docs : List DocumentEntity) :
    (store.find? (fun s => s.id == id) = none →
      supplierUpdate id sdto store =
        .error { message := "Supplier not found", status := .notFound } ∧
      supplierRemove id store = .ok store ∧
      supplierFindOne id store = none) ∧
    (db.find? (fun u => u.id == id) = none →
      updateUser id udto db =
        .error { message := "User not found", status := .notFound } ∧
      deleteUser id db = .ok db ∧
      getUser id db = .error { message := "User not found", status := .badRequest }) ∧
    (docs.find? (fun d => d.id == id) = none →
      documentsFindById id docs =
        .error { message := "Document not found", status := .notFound }) := by
  refine ⟨?_, ?_, ?_⟩
  · intro h
    have h' := List.find?_eq_none.mp h
    have hfil : store.filter (fun s => !(s.id == id)) = store := by
      apply List.filter_eq_self.mpr
      intro a ha
      simp [h' a ha]
    exact ⟨by simp [supplierUpdate, h], by simp [supplierRemove, hfil],
      by simp [supplierFindOne, h]⟩
  · intro h
    have h' := List.find?_eq_none.mp h
    have hfil : db.filter (fun u => !(u.id == id)) = db := by
      apply List.filter_eq_self.mpr
      intro a ha
      simp [h' a ha]
    exact ⟨by simp [updateUser, h], by simp [deleteUser, hfil], by simp [getUser, h]⟩
  · intro h
    simp [documentsFindById, h]

/-- Witness for absent_id_behavior on concrete empty stores: id 1 is absent
everywhere, updates and the document lookup fail NotFound while the deletes
succeed. -/
theorem absent_id_behavior_witness :
    supplierUpdate 1 { name := none, contact := none } [] =
      .error { message := "Supplier not found", status := .notFound } ∧
    supplierRemove 1 ([{ id := 2, name := "ACME", contact := "x" }]) =
      .ok [{ id := 2, name := "ACME", contact := "x" }] ∧
    updateUser 1 { name := "N", email := "e", password := "p", cpf := "c" } [] =
      .error { message := "User not found", status := .notFound } ∧
    documentsFindById 1 [] =
      .error { message := "Document not found", status := .notFound } := by
  obtain ⟨h1, h2, h3⟩ := absent_id_behavior 1 { name := none, contact := none }
    { name := "N", email := "e", password := "p", cpf := "c" }
    [{ id := 2, name := "ACME", contact := "x" }] [] []
  exact ⟨((absent_id_behavior 1 { name := none, contact := none }
      { name := "N", email := "e", password := "p", cpf := "c" } [] [] []).1 rfl).1,
    (h1 (by decide)).2.1, (h2 rfl).1, h3 rfl⟩

/-- Claim C8 is right and the code is wrong: for a verified token payload
whose uid matches no stored user, findByPayload applies the mapper to a null
entity and the property access raises a TypeError, so validateUser rejects
with that TypeError instead of the Unauthorized HttpException its own
documentation promises; when a user with the uid exists the DTO is
returned. -/
theorem validateUser_null_typeError :
    validateUser "missing-uid" [] =
      .error (.typeError "Cannot read properties of null") ∧
    validateUser "u-1" [sampleUser] = .ok (toUserDTO sampleUser) :=
  ⟨rfl, rfl⟩

/-- Claim C9: the pending upload is set (and the oversize flag cleared)
exactly for a selected file of MIME type application/pdf with size at most
MAX_FILE_SIZE; a non-PDF selection only appends the alert, an oversized PDF
only sets the oversize flag, and an empty selection does nothing — in all
three rejecting cases uploadFile is unchanged. -/
theorem onFileSelected_cases (st : EntryComponentState) (file : FileInfo) :
    (file.mimeType = "application/pdf" → file.size ≤ MAX_FILE_SIZE →
      onFileSelected st [file] =
        { st with file_size_error := false,
                  uploadFile := some (file.name, file.base64) }) ∧
    (file.mimeType ≠ "application/pdf" →
      onFileSelected st [file] =
        { st with alerts := st.alerts ++ ["Apenas arquivos PDF são permitidos!"] }) ∧
    (file.mimeType = "application/pdf" → MAX_FILE_SIZE < file.size →
      onFileSelected st [file] = { st with file_size_error := true }) ∧
    onFileSelected st [] = st := by
  refine ⟨?_, ?_, ?_, rfl⟩
  · intro hmime hsize
    simp [onFileSelected, hmime, Nat.not_lt.mpr hsize]
  · intro hmime
    simp [onFileSelected, hmime]
  · intro hmime hsize
    simp [onFileSelected, hmime, hsize]

/-- Filtering by the empty WHERE clause keeps every row. -/
theorem filter_emptyQuery (docs : List DocumentEntity) :
    docs.filter emptyQuery = docs := by
  induction docs with
  | nil => rfl
  | cons d ds ih => simp [List.filter, emptyQuery, ih]

/-- A string clause whose provided value is not the empty string coincides
with the truthiness-guarded form used by the query builder. -/
theorem optClauseStr_eq_ite (g : String → Bool) (o : Option String)
    (h : o ≠ some "") :
    optClauseStr g o = (if truthyStr o then g (o.getD "") else true) := by
  cases o with
  | none => rfl
  | some s =>
    have hs : ¬(s = "") := fun hh => h (by rw [hh])
    simp [optClauseStr, truthyStr, hs]

/-- A numeric clause whose provided value is nonzero coincides with the
truthiness-guarded form used by the query builder. -/
theorem optClauseNum_eq_ite (g : Nat → Bool) (o : Option Nat)
    (h : o ≠ some 0) :
    optClauseNum g o = (if truthyNum o then g (o.getD 0) else true) := by
  cases o with
  | none => rfl
  | some n =>
    have hn : ¬(n = 0) := fun hh => h (by rw [hh])
    simp [optClauseNum, truthyNum, hn]

/-- Every list has an empty tail among its tails. -/
theorem tails_any_isEmpty (s : List Char) :
    (s.tails.any fun t => t.isEmpty) = true := by
  induction s with
  | nil => decide
  | cons a s ih => simp [List.tails_cons, List.any_cons, ih]

/-- Unfolding lemma: the empty pattern matches only the empty string. -/
theorem likeMatch_nil (s : List Char) : likeMatch [] s = s.isEmpty := by
  rw [likeMatch.eq_def]

/-- Unfolding lemma: a leading percent sign matches any split of the
string. -/
theorem likeMatch_percent (ps s : List Char) :
    likeMatch ('%' :: ps) s = s.tails.any (fun t => likeMatch ps t) := by
  rw [likeMatch.eq_def]
  simp

/-- Unfolding lemma: a leading non-percent pattern character never matches
the empty string. -/
theorem likeMatch_literal_nil (c : Char) (ps : List Char)
    (hcp : (c == '%') = false) : likeMatch (c :: ps) [] = false := by
  rw [likeMatch.eq_def]
  rcases ps with _ | ⟨e, ps'⟩ <;> simp only [hcp, Bool.false_eq_true, if_false] <;>
    split_ifs <;> simp

/-- Unfolding lemma: a leading literal (non-metacharacter) pattern character
consumes one equal string character. -/
theorem likeMatch_literal_cons (c : Char) (ps : List Char) (d : Char)
    (s' : List Char) (hcp : (c == '%') = false) (hcb : (c == '\\') = false)
    (hcu : (c == '_') = false) :
    likeMatch (c :: ps) (d :: s') = ((d == c) && likeMatch ps s') := by
  rw [likeMatch.eq_def]
  simp [hcp, hcb, hcu]

/-- A LIKE pattern made of metacharacter-free literals followed by one
trailing percent sign matches exactly the strings it is a prefix of. -/
theorem likeMatch_append_percent (w : List Char)
    (hw : w.all (fun c => !(c == '%' || c == '_' || c == '\\')) = true)
    (t : List Char) : likeMatch (w ++ ['%']) t = w.isPrefixOf t := by
  induction w generalizing t with
  | nil =>
    rw [List.nil_append, likeMatch_percent]
    simp [likeMatch_nil, tails_any_isEmpty, List.isPrefixOf]
  | cons c w ih =>
    simp only [List.all_cons, Bool.and_eq_true, Bool.not_eq_true',
      Bool.or_eq_false_iff] at hw
    obtain ⟨⟨⟨hc1, hc2⟩, hc3⟩, hw'⟩ := hw
    cases t with
    | nil =>
      rw [List.cons_append, likeMatch_literal_nil c _ hc1]
      simp [List.isPrefixOf]
    | cons d t' =>
      have hbeq : (d == c) = (c == d) := by
        by_cases hdc : d = c
        · subst hdc; rfl
        · rw [beq_eq_false_iff_ne.mpr hdc, beq_eq_false_iff_ne.mpr (Ne.symm hdc)]
      rw [List.cons_append, likeMatch_literal_cons c _ d _ hc1 hc3 hc2]
      simp only [ih hw', hbeq, List.isPrefixOf]

/-- Scanning the tails of a list is scanning its drops at every offset. -/
theorem tails_any_eq_range_any (p : List Char → Bool) (s : List Char) :
    s.tails.any p = (List.range (s.length + 1)).any (fun i => p (s.drop i)) := by
  induction s with
  | nil =>
    have h0 : List.range 1 = [0] := by decide
    simp [h0]
  | cons a s ih =>
    simp only [List.tails_cons, List.any_cons, List.length_cons]
    rw [List.range_succ_eq_map]
    simp [List.any_map, Function.comp_def, List.drop_succ_cons, ih]

/-- On a filter value free of LIKE metacharacters, the filename clause built
by the query — LIKE with the lowercased value wrapped in percent signs — is
the case-insensitive substring test of the spec. -/
theorem likeMatch_likePattern_eq_containsSub (v : String)
    (hv : noLikeMeta (jsToLowerCase v) = true) (s : String) :
    likeMatch (likePattern v) s.data = containsSub s (jsToLowerCase v) := by
  have hw : (jsToLowerCase v).data.all
      (fun c => !(c == '%' || c == '_' || c == '\\')) = true := hv
  simp only [likePattern, containsSub, List.cons_append]
  rw [likeMatch_percent]
  simp only [likeMatch_append_percent _ hw, tails_any_eq_range_any]

/-- Claim C5 as stated is false on the code: the filename filter is an SQL
LIKE pattern, not a literal substring test, so the filter value consisting of
the single LIKE wildcard underscore matches the sample document (LIKE
matches any one character) even though it is not a substring of the
filename. -/
theorem findWithFilters_not_substring_on_metachars :
    findWithFilters { emptyFilter with filename := some "_" } [sampleDoc] =
      [toDocumentDTO sampleDoc] ∧
    ([sampleDoc].filter
      (specMatchesFilter { emptyFilter with filename := some "_" })).map
      toDocumentDTO = ([] : List DocumentDTO) ∧
    [toDocumentDTO sampleDoc] ≠ ([] : List DocumentDTO) :=
  ⟨by decide, by decide, by decide⟩

/-- Claim C5 (amended): the filename predicate of the document filter query
is a case-insensitive SQL LIKE match of the value wrapped in percent signs,
which coincides with a case-insensitive substring match whenever the provided
value is free of the LIKE metacharacters percent, underscore and backslash;
under that proviso, and with every provided filter value non-degenerate (not
the empty string, not zero), the result set is exactly the documents
satisfying the conjunction of the provided predicates, an absent filter
imposing no constraint; with no filters at all the full document set is
returned. -/
theorem findWithFilters_is_conjunction (filters : DocumentFilter)
    (docs : List DocumentEntity) :
    (filters.file_type ≠ some "" → filters.user_id ≠ some 0 →
     filters.id ≠ some 0 → filters.filename ≠ some "" →
     filters.upload_date ≠ some "" →
     (∀ v, filters.filename = some v → noLikeMeta (jsToLowerCase v) = true) →
      findWithFilters filters docs =
        (docs.filter (specMatchesFilter filters)).map toDocumentDTO) ∧
    findWithFilters emptyFilter docs = docs.map toDocumentDTO := by
  constructor
  · intro h1 h2 h3 h4 h5 h6
    have hv : noLikeMeta (jsToLowerCase (filters.filename.getD "")) = true := by
      cases hfn : filters.filename with
      | none => decide
      | some v => exact h6 v hfn
    have hlike : ∀ d : DocumentEntity,
        likeMatch (likePattern (filters.filename.getD ""))
          (jsToLowerCase d.filename).data =
        containsSub (jsToLowerCase d.filename)
          (jsToLowerCase (filters.filename.getD "")) :=
      fun d => likeMatch_likePattern_eq_containsSub _ hv _
    simp only [findWithFilters]
    congr 1
    apply List.filter_congr
    intro d _
    simp only [specMatchesFilter,
      optClauseStr_eq_ite _ _ h1, optClauseNum_eq_ite _ _ h2,
      optClauseNum_eq_ite _ _ h3, optClauseStr_eq_ite _ _ h4,
      optClauseStr_eq_ite _ _ h5, ite_apply, hlike]
    split_ifs <;> simp [andWhere, emptyQuery, Bool.and_assoc]
  · simp [findWithFilters, emptyFilter, truthyStr, truthyNum, filter_emptyQuery]

/-- Witness for findWithFilters_is_conjunction: the metacharacter-free
filename filter "inv" keeps exactly the sample invoice among two documents. -/
theorem findWithFilters_is_conjunction_witness :
    findWithFilters { emptyFilter with filename := some "inv" }
      [sampleDoc,
       { id := 2, filename := "note.txt", file_type := "txt",
         upload_date := "2024-01-02", user_id := 3 }] =
      ([sampleDoc,
        ({ id := 2, filename := "note.txt", file_type := "txt",
           upload_date := "2024-01-02", user_id := 3 } : DocumentEntity)].filter
        (specMatchesFilter { emptyFilter with filename := some "inv" })).map
        toDocumentDTO :=
  (findWithFilters_is_conjunction { emptyFilter with filename := some "inv" }
    [sampleDoc,
     { id := 2, filename := "note.txt", file_type := "txt",
       upload_date := "2024-01-02", user_id := 3 }]).1
    (by decide) (by decide) (by decide) (by decide) (by decide)
    (by intro v hv; cases hv; decide)

/-- Claim C10: a filter whose value is falsy — the empty string for file type
or filename, zero for user id or document id — is treated exactly like an
absent filter, so the query returns the full document set, for every store. -/
theorem falsy_filters_impose_no_constraint (docs : List DocumentEntity) :
    findWithFilters
      { file_type := some "", user_id := some 0, id := some 0,
        filename := some "", upload_date := some "" } docs =
      docs.map toDocumentDTO ∧
    findWithFilters emptyFilter docs = docs.map toDocumentDTO := by
  constructor
  · simp [findWithFilters, truthyStr, truthyNum, filter_emptyQuery]
  · simp [findWithFilters, emptyFilter, truthyStr, truthyNum, filter_emptyQuery]

/-- Stripping non-digits leaves only digit characters. -/
theorem stripNonDigits_all_digits (s : String) :
    (stripNonDigits s).data.all Char.isDigit = true := by
  simp only [stripNonDigits]
  rw [List.all_eq_true]
  intro x hx
  exact (List.mem_filter.mp hx).2

/-- The masking replacement applied to exactly eleven digit characters yields
the canonical 000.000.000-00 shape. -/
theorem replaceFirstCpf_eleven (l : List Char) (hlen : l.length = 11)
    (hdig : l.all Char.isDigit = true) :
    isCpfMask (String.mk (replaceFirstCpf l)) = true := by
  rcases l with _ | ⟨c0, l⟩
  · simp at hlen
  rcases l with _ | ⟨c1, l⟩
  · simp at hlen
  rcases l with _ | ⟨c2, l⟩
  · simp at hlen
  rcases l with _ | ⟨c3, l⟩
  · simp at hlen
  rcases l with _ | ⟨c4, l⟩
  · simp at hlen
  rcases l with _ | ⟨c5, l⟩
  · simp at hlen
  rcases l with _ | ⟨c6, l⟩
  · simp at hlen
  rcases l with _ | ⟨c7, l⟩
  · simp at hlen
  rcases l with _ | ⟨c8, l⟩
  · simp at hlen
  rcases l with _ | ⟨c9, l⟩
  · simp at hlen
  rcases l with _ | ⟨c10, l⟩
  · simp at hlen
  rcases l with _ | ⟨c11, l⟩
  · simp [replaceFirstCpf, isCpfMask, hdig] at hdig ⊢
  · simp only [List.length_cons] at hlen
    omega

/-- Claim C7: every create or update input has its national id stored with
all non-digit characters removed (mapUserDTO) and the stored value consists of
digits only; and for every stored user whose digit-stripped national id has
the eleven digits of a CPF, the DTO produced by the mapper renders it in the
canonical masked format 000.000.000-00. -/
theorem cpf_digits_only_and_masked (dto : UserCreateDTO) (entity : UserEntity) :
    (mapUserDTO dto).cpf = stripNonDigits dto.cpf ∧
    (stripNonDigits dto.cpf).data.all Char.isDigit = true ∧
    ((stripNonDigits entity.cpf).data.length = 11 →
      isCpfMask (toUserDTO entity).cpf = true) := by
  refine ⟨rfl, stripNonDigits_all_digits dto.cpf, ?_⟩
  intro hlen
  have hdig : (stripNonDigits entity.cpf).data.all Char.isDigit = true :=
    stripNonDigits_all_digits entity.cpf
  exact replaceFirstCpf_eleven _ hlen hdig

/-- Witness for cpf_digits_only_and_masked: the punctuated input
529.982.247-25 is stored digits-only and rendered masked. -/
theorem cpf_digits_only_and_masked_witness :
    isCpfMask (toUserDTO { sampleUser with cpf := "529.982.247-25" }).cpf = true :=
  (cpf_digits_only_and_masked
    { name := "Ana", email := "a@b.com", password := "p", cpf := "529.982.247-25" }
    { sampleUser with cpf := "529.982.247-25" }).2.2 (by decide)

/-- Claim C2 is right about the construction but wrong about the length, and
the code contradicts its own documentation: for a single-word product name the
initials contribute one character and the random number four, so for every
random draw below 9999 and every shuffle the generated identifier has five
characters, not six. -/
theorem generateEntryId_single_word_five (shuffle : List Char → List Char)
    (r : Nat) (hperm : ∀ l, (shuffle l).Perm l) (hr : r < 9999) :
    (generateEntryId shuffle r "Apple").length = 5 := by
  have hrep : (Nat.repr r).length ≤ 4 := Nat.repr_length r 4 (by omega) (by omega)
  simp only [String.length] at hrep
  have hpad : (padStart4 (Nat.repr r)).length = 4 := by
    simp only [padStart4, List.length_append, List.length_replicate]
    omega
  have hinit : initials "Apple" = ['A'] := by decide
  have hcomb : (shuffle (initials "Apple" ++ padStart4 (Nat.repr r))).length = 5 := by
    rw [(hperm _).length_eq, List.length_append, hinit, hpad]
    decide
  show ((shuffle (initials "Apple" ++ padStart4 (Nat.repr r))).take 6).length = 5
  rw [List.length_take, hcomb]
  decide

/-- Witness for generateEntryId_single_word_five: the identity shuffle and the
draw 0 give the five-character identifier A0000. -/
theorem generateEntryId_single_word_five_witness :
    (generateEntryId id 0 "Apple").length = 5 :=
  generateEntryId_single_word_five id 0 (fun l => List.Perm.refl l) (by decide)

/-- Witness for onFileSelected_cases: a small PDF is accepted into
uploadFile, with the oversize flag cleared. -/
theorem onFileSelected_cases_witness :
    onFileSelected { uploadFile := none, file_size_error := true, alerts := [] }
      [{ name := "nf.pdf", mimeType := "application/pdf", size := 1024, base64 := "QUJD" }] =
      { uploadFile := some ("nf.pdf", "QUJD"), file_size_error := false, alerts := [] } :=
  (onFileSelected_cases { uploadFile := none, file_size_error := true, alerts := [] }
    { name := "nf.pdf", mimeType := "application/pdf", size := 1024, base64 := "QUJD" }).1
    rfl (by decide)
